import Mathlib

/-!
Shallow embedding of `dbhandler` (src/dbhandler/handler.py and
src/dbhandler/exception.py): a thin wrapper around an SQLite file.

The database state is the catalog of tables (`sqlite_master` order:
created tables are appended; `DROP` + re-`CREATE`, as done by pandas
`to_sql(if_exists="replace")`, moves the entry to the end).  Each public
operation of `DBHandler` is a function from the state to an `OpResult`
carrying the resulting state, the list of SQL statements actually handed
to the engine (in order), and the error raised, if any.  Python
exceptions (`TableNotFoundError`, `ValueError`) become `DBError` values;
errors raised by the sqlite3 engine itself (arity mismatches and the
like) become `DBError.engineError`.
-/

set_option autoImplicit false

namespace DBH

/-- An SQLite scalar value, as stored in a cell.  (REAL columns are not
needed by any claim and floating point is not modelled.) -/
inductive Val where
  | intV : Int → Val
  | textV : String → Val
  | nullV : Val
deriving DecidableEq, Repr

/-- A row: a sequence of scalar values, as returned by `fetchall`. -/
abbrev Row := List Val

/-- One table of the store: its name, its ordered column names and its
ordered rows. -/
structure Table where
  name : String
  columns : List String
  rows : List Row
deriving DecidableEq, Repr

/-- The database state: the catalog of user tables, in `sqlite_master`
order. -/
structure DB where
  tables : List Table
deriving DecidableEq, Repr

/-- A `pandas.DataFrame` as the wrapper uses it: ordered named columns
plus ordered rows (the wrapper always passes `index=False`). -/
structure DataFrame where
  columns : List String
  rows : List Row
deriving DecidableEq, Repr

/-- `pandas.DataFrame.empty`: true iff either axis has length 0. -/
def DataFrame.empty (df : DataFrame) : Bool :=
  df.rows.isEmpty || df.columns.isEmpty

/-- The Python value types accepted by `create_table`'s `columns_dict`:
`{int, float, str, None}`. -/
inductive PyType where
  | pint
  | pfloat
  | pstr
  | pnone
deriving DecidableEq, Repr

/-- `type_dict = {int: "INTEGER", float: "REAL", str: "TEXT", None: "NULL"}`
in `DBHandler.create_table`. -/
def type_dict : PyType → String
  | .pint => "INTEGER"
  | .pfloat => "REAL"
  | .pstr => "TEXT"
  | .pnone => "NULL"

/-- The errors surfaced by the wrapper: `TableNotFoundError(name)`,
`ValueError(msg)`, and errors propagated from the sqlite3 engine. -/
inductive DBError where
  | tableNotFound (name : String)
  | valueError (msg : String)
  | engineError (msg : String)
deriving DecidableEq, Repr

/-- Outcome of one public operation: the state afterwards, the SQL
statements that were handed to the engine (in order), and the error
raised, if any.  A raised Python exception leaves `db` at the state the
engine had reached. -/
structure OpResult where
  db : DB
  executed : List String
  err : Option DBError
deriving DecidableEq, Repr

/-- `str.join` of Python, used as `", ".join(["?"] * n_columns)`. -/
def pyJoin (sep : String) : List String → String
  | [] => ""
  | [a] => a
  | a :: rest => a ++ sep ++ pyJoin sep rest

/-- The rows of `sqlite_master` relevant to the wrapper: one `(type, name)`
entry per catalog object; every object this wrapper creates is a table. -/
def sqliteMasterRows (db : DB) : List (String × String) :=
  db.tables.map (fun t => ("table", t.name))

/-- `DBHandler.tables`: `SELECT name FROM sqlite_master WHERE type='table'`,
then the `name` column as a list. -/
def tablesProp (db : DB) : List String :=
  (sqliteMasterRows db).filterMap
    (fun e => if e.fst = "table" then some e.snd else none)

/-- Engine-level lookup of a table by name in the catalog. -/
def findTable (db : DB) (name : String) : Option Table :=
  db.tables.find? (fun t => t.name = name)

/-- `SELECT DISTINCT * FROM t` on a row list: keep the first occurrence
of each row, in order.  `seen` accumulates rows already emitted. -/
def selectDistinctAux : List Row → List Row → List Row
  | [], _ => []
  | r :: rs, seen =>
    if r ∈ seen then selectDistinctAux rs seen
    else r :: selectDistinctAux rs (r :: seen)

/-- The distinct projection over all columns of a row list. -/
def selectDistinct (rows : List Row) : List Row :=
  selectDistinctAux rows []

/-- `DBHandler.create_table`: issues
`CREATE TABLE IF NOT EXISTS name (col type, ...)` and commits.  The
engine appends a fresh empty table when the name is absent and does
nothing otherwise. -/
def create_table (db : DB) (table_name : String)
    (columns_dict : List (String × PyType)) : OpResult :=
  let columns := pyJoin ", "
    (columns_dict.map (fun kv => kv.fst ++ " " ++ type_dict kv.snd))
  let query := "CREATE TABLE IF NOT EXISTS " ++ table_name ++ " (" ++ columns ++ ")"
  if table_name ∈ tablesProp db then
    { db := db, executed := [query], err := none }
  else
    { db := { tables := db.tables ++
        [{ name := table_name, columns := columns_dict.map Prod.fst, rows := [] }] },
      executed := [query], err := none }

/-- `DBHandler.create_table_from_dataframe`:
`df.to_sql(table_name, conn, if_exists="replace", index=False)` then
commit.  Replace drops any existing table of that name and re-creates it
from the frame, so the catalog entry moves to the end. -/
def create_table_from_dataframe (db : DB) (table_name : String)
    (df : DataFrame) : OpResult :=
  { db := { tables := db.tables.filter (fun t => t.name ≠ table_name) ++
      [{ name := table_name, columns := df.columns, rows := df.rows }] },
    executed := ["to_sql(" ++ table_name ++ ", if_exists=replace)"],
    err := none }

/-- `DBHandler.rename_table`: raises `TableNotFoundError(from_)` when
`from_` is absent, otherwise `ALTER TABLE from_ RENAME TO to_` and
commit. -/
def rename_table (db : DB) (from_ : String) (to_ : String) : OpResult :=
  if from_ ∉ tablesProp db then
    { db := db, executed := [], err := some (.tableNotFound from_) }
  else
    { db := { tables := db.tables.map (fun t =>
          if t.name = from_ then { t with name := to_ } else t) },
      executed := ["ALTER TABLE " ++ from_ ++ " RENAME TO " ++ to_],
      err := none }

/-- `DBHandler.delete_duplicated`: raises `TableNotFoundError` when the
table is absent, otherwise reads `SELECT DISTINCT * FROM table_name`
into a frame and hands it to `create_table_from_dataframe`. -/
def delete_duplicated (db : DB) (table_name : String) : OpResult :=
  if table_name ∉ tablesProp db then
    { db := db, executed := [], err := some (.tableNotFound table_name) }
  else
    match findTable db table_name with
    | none =>
      { db := db, executed := ["SELECT DISTINCT * FROM " ++ table_name],
        err := some (.engineError ("no such table: " ++ table_name)) }
    | some t =>
      let r := create_table_from_dataframe db table_name
        { columns := t.columns, rows := selectDistinct t.rows }
      { r with executed := ("SELECT DISTINCT * FROM " ++ table_name) :: r.executed }

/-- `DBHandler.delete_table`: raises `TableNotFoundError` when absent,
otherwise `DROP TABLE IF EXISTS table_name` and commit. -/
def delete_table (db : DB) (table_name : String) : OpResult :=
  if table_name ∉ tablesProp db then
    { db := db, executed := [], err := some (.tableNotFound table_name) }
  else
    { db := { tables := db.tables.filter (fun t => t.name ≠ table_name) },
      executed := ["DROP TABLE IF EXISTS " ++ table_name],
      err := none }

/-- `DBHandler.fetchall`: raises `TableNotFoundError` when absent,
otherwise `SELECT * FROM table_name` fetched as a list of rows.
A pure read: no state output. -/
def fetchall (db : DB) (table_name : String) : Except DBError (List Row) :=
  if table_name ∉ tablesProp db then
    .error (.tableNotFound table_name)
  else
    match findTable db table_name with
    | none => .error (.engineError ("no such table: " ++ table_name))
    | some t => .ok t.rows

/-- `DBHandler.fetchall_to_dataframe`: same read, returned as a
`pandas.DataFrame` with the table's column names. -/
def fetchall_to_dataframe (db : DB) (table_name : String) :
    Except DBError DataFrame :=
  if table_name ∉ tablesProp db then
    .error (.tableNotFound table_name)
  else
    match findTable db table_name with
    | none => .error (.engineError ("no such table: " ++ table_name))
    | some t => .ok { columns := t.columns, rows := t.rows }

/-- `DBHandler.insert_records`: raises `TableNotFoundError` when the
table is absent and `ValueError("add data is empty.")` when `values` is
empty; otherwise builds
`INSERT INTO table_name VALUES (?, ..., ?)` with `len(values[0])`
placeholders and runs `executemany` over `values`, then commits.  The
engine rejects the statement when the placeholder count differs from the
table's column count, and rejects a binding whose arity differs from the
placeholder count. -/
def insert_records (db : DB) (table_name : String) (values : List Row) :
    OpResult :=
  if table_name ∉ tablesProp db then
    { db := db, executed := [], err := some (.tableNotFound table_name) }
  else if values.length = 0 then
    { db := db, executed := [], err := some (.valueError "add data is empty.") }
  else
    let n_columns := (values.headD []).length
    let query := "INSERT INTO " ++ table_name ++ " VALUES ("
      ++ pyJoin ", " (List.replicate n_columns "?") ++ ")"
    match findTable db table_name with
    | none =>
      { db := db, executed := [query],
        err := some (.engineError ("no such table: " ++ table_name)) }
    | some t =>
      if n_columns ≠ t.columns.length then
        { db := db, executed := [query],
          err := some (.engineError "table has a different number of columns") }
      else if values.all (fun v => v.length = n_columns) then
        { db := { tables := db.tables.map (fun u =>
              if u.name = table_name then { u with rows := u.rows ++ values } else u) },
          executed := [query], err := none }
      else
        { db := db, executed := [query],
          err := some (.engineError "incorrect number of bindings supplied") }

/-- `DBHandler.insert_records_from_dataframe`: raises
`TableNotFoundError` when the table is absent and
`ValueError("add data is empty.")` when `df.empty`; otherwise
`df.to_sql(table_name, conn, if_exists="append", index=False)` and
commit.  Append inserts the frame's rows by column name; the engine
rejects a frame whose columns do not line up with the table's. -/
def insert_records_from_dataframe (db : DB) (table_name : String)
    (df : DataFrame) : OpResult :=
  if table_name ∉ tablesProp db then
    { db := db, executed := [], err := some (.tableNotFound table_name) }
  else if df.empty then
    { db := db, executed := [], err := some (.valueError "add data is empty.") }
  else
    match findTable db table_name with
    | none =>
      { db := db, executed := ["to_sql(" ++ table_name ++ ", if_exists=append)"],
        err := some (.engineError ("no such table: " ++ table_name)) }
    | some t =>
      if df.columns = t.columns then
        { db := { tables := db.tables.map (fun u =>
              if u.name = table_name then { u with rows := u.rows ++ df.rows } else u) },
          executed := ["to_sql(" ++ table_name ++ ", if_exists=append)"],
          err := none }
      else
        { db := db,
          executed := ["to_sql(" ++ table_name ++ ", if_exists=append)"],
          err := some (.engineError "frame columns do not match table columns") }

/-- `TableNotFoundError` of src/dbhandler/exception.py. -/
structure TableNotFoundError where
  table_name : String
deriving DecidableEq, Repr

/-- `TableNotFoundError.__str__`:
`f"table '{self.__table_name}' does not exists yet."`. -/
def TableNotFoundError.str (e : TableNotFoundError) : String :=
  "table '" ++ e.table_name ++ "' does not exists yet."

/-- Number of positional parameter slots in an SQL text: its count of
`?` characters. -/
def countPlaceholders (s : String) : Nat :=
  s.data.count '?'

/-- The placeholder segment `", ".join(["?"] * n)` of the generated
INSERT statement. -/
def placeholders (n : Nat) : String :=
  pyJoin ", " (List.replicate n "?")

/-- The row content the test suite uses: `{"id": [1, 2, 2],
"name": ["te1", "te2", "te2"]}`. -/
def rowsW : List Row :=
  [[.intV 1, .textV "te1"], [.intV 2, .textV "te2"], [.intV 2, .textV "te2"]]

/-- A concrete table named `test` with those rows. -/
def tableW : Table :=
  { name := "test", columns := ["id", "name"], rows := rowsW }

/-- A concrete database holding only `tableW`. -/
def dbW : DB :=
  { tables := [tableW] }

/-- A concrete dataframe with the `test` columns and zero rows. -/
def dfEmptyW : DataFrame :=
  { columns := ["id", "name"], rows := [] }

section Lemmas

/-- `DBHandler.tables` is exactly the catalog's name column, in catalog
order. -/
theorem tablesProp_eq_map_name (db : DB) :
    tablesProp db = db.tables.map Table.name := by
  rw [tablesProp, sqliteMasterRows]
  induction db.tables with
  | nil => rfl
  | cons a l ih => simpa [List.filterMap_cons] using ih

theorem mem_tablesProp_of_findTable {db : DB} {t : String} {tbl : Table}
    (h : findTable db t = some tbl) : t ∈ tablesProp db := by
  rw [tablesProp_eq_map_name]
  have hmem := List.mem_of_find?_eq_some h
  have hname := List.find?_some h
  simp only [decide_eq_true_eq] at hname
  exact hname ▸ List.mem_map_of_mem Table.name hmem

theorem findTable_of_mem {db : DB} {t : String} (h : t ∈ tablesProp db) :
    ∃ tbl, findTable db t = some tbl := by
  rw [tablesProp_eq_map_name] at h
  obtain ⟨tbl, hmem, hname⟩ := List.mem_map.mp h
  have : (findTable db t).isSome := by
    rw [findTable, List.find?_isSome]
    exact ⟨tbl, hmem, by simp [hname]⟩
  exact Option.isSome_iff_exists.mp this

theorem find?_filter_append (l : List Table) (nt : Table) (t : String)
    (h : nt.name = t) :
    ((l.filter (fun x => x.name ≠ t)) ++ [nt]).find? (fun x => x.name = t)
      = some nt := by
  induction l with
  | nil => simp [h]
  | cons a l ih =>
    by_cases ha : a.name = t
    · rw [List.filter_cons_of_neg (by simp [ha])]
      exact ih
    · rw [List.filter_cons_of_pos (by simp [ha]), List.cons_append,
        List.find?_cons_of_neg _ (by simp [ha])]
      exact ih

theorem findTable_replace (db : DB) (t : String) (df : DataFrame) :
    findTable (create_table_from_dataframe db t df).db t
      = some { name := t, columns := df.columns, rows := df.rows } := by
  simp only [create_table_from_dataframe, findTable]
  exact find?_filter_append db.tables _ t rfl

theorem mem_tablesProp_replace (db : DB) (t : String) (df : DataFrame) :
    t ∈ tablesProp (create_table_from_dataframe db t df).db :=
  mem_tablesProp_of_findTable (findTable_replace db t df)

theorem fetchall_replace (db : DB) (t : String) (df : DataFrame) :
    fetchall (create_table_from_dataframe db t df).db t = .ok df.rows := by
  rw [fetchall, if_neg (by simp [mem_tablesProp_replace db t df]),
    findTable_replace]

theorem map_name_append_rows (l : List Table) (t : String) (vs : List Row) :
    (l.map (fun u => if u.name = t then { u with rows := u.rows ++ vs } else u)).map
      Table.name = l.map Table.name := by
  rw [List.map_map]
  refine List.map_congr_left (fun a _ => ?_)
  by_cases ha : a.name = t <;> simp [ha]

theorem find?_append_rows (l : List Table) (t : String) (tbl : Table)
    (vs : List Row) (h : l.find? (fun x => x.name = t) = some tbl) :
    (l.map (fun u => if u.name = t then { u with rows := u.rows ++ vs } else u)).find?
      (fun x => x.name = t) = some { tbl with rows := tbl.rows ++ vs } := by
  induction l with
  | nil => simp at h
  | cons a l ih =>
    by_cases ha : a.name = t
    · rw [List.find?_cons_of_pos _ (by simp [ha])] at h
      obtain rfl : a = tbl := Option.some.inj h
      simp [List.find?_cons_of_pos, ha]
    · rw [List.find?_cons_of_neg _ (by simp [ha])] at h
      simpa [List.find?_cons_of_neg, ha] using ih h

theorem mem_selectDistinctAux (r : Row) :
    ∀ (l seen : List Row), r ∈ selectDistinctAux l seen ↔ r ∈ l ∧ r ∉ seen := by
  intro l
  induction l with
  | nil => simp [selectDistinctAux]
  | cons a l ih =>
    intro seen
    by_cases ha : a ∈ seen
    · rw [selectDistinctAux, if_pos ha, ih]
      constructor
      · exact fun ⟨h1, h2⟩ => ⟨List.mem_cons_of_mem a h1, h2⟩
      · rintro ⟨hm, h2⟩
        rcases List.mem_cons.mp hm with rfl | h1
        · exact absurd ha h2
        · exact ⟨h1, h2⟩
    · rw [selectDistinctAux, if_neg ha]
      constructor
      · intro hm
        rcases List.mem_cons.mp hm with rfl | hm'
        · exact ⟨List.mem_cons_self r l, ha⟩
        · obtain ⟨h1, h2⟩ := (ih (a :: seen)).mp hm'
          exact ⟨List.mem_cons_of_mem a h1,
            fun hs => h2 (List.mem_cons_of_mem a hs)⟩
      · rintro ⟨hm, h2⟩
        rcases List.mem_cons.mp hm with rfl | h1
        · exact List.mem_cons_self r _
        · by_cases hra : r = a
          · exact hra ▸ List.mem_cons_self a _
          · refine List.mem_cons_of_mem a ((ih (a :: seen)).mpr ⟨h1, ?_⟩)
            simp [List.mem_cons, hra, h2]

theorem nodup_selectDistinctAux :
    ∀ (l seen : List Row), (selectDistinctAux l seen).Nodup := by
  intro l
  induction l with
  | nil => intro seen; simp [selectDistinctAux]
  | cons a l ih =>
    intro seen
    by_cases ha : a ∈ seen
    · rw [selectDistinctAux, if_pos ha]; exact ih seen
    · rw [selectDistinctAux, if_neg ha]
      refine List.nodup_cons.mpr ⟨?_, ih (a :: seen)⟩
      intro hmem
      exact ((mem_selectDistinctAux a l (a :: seen)).mp hmem).2 (List.mem_cons_self a seen)

theorem mem_selectDistinct (r : Row) (l : List Row) :
    r ∈ selectDistinct l ↔ r ∈ l := by
  rw [selectDistinct, mem_selectDistinctAux]
  simp

theorem nodup_selectDistinct (l : List Row) : (selectDistinct l).Nodup :=
  nodup_selectDistinctAux l []

theorem countPlaceholders_append (a b : String) :
    countPlaceholders (a ++ b) = countPlaceholders a + countPlaceholders b := by
  have h : (a ++ b).data = a.data ++ b.data := rfl
  rw [countPlaceholders, countPlaceholders, countPlaceholders, h,
    List.count_append]

theorem countPlaceholders_placeholders :
    ∀ n : Nat, countPlaceholders (placeholders n) = n
  | 0 => rfl
  | 1 => rfl
  | n + 2 => by
    have ih := countPlaceholders_placeholders (n + 1)
    have hstep : placeholders (n + 2) = "?" ++ ", " ++ placeholders (n + 1) := by
      rw [placeholders, placeholders, List.replicate_succ, List.replicate_succ]
      rfl
    rw [hstep, countPlaceholders_append, countPlaceholders_append, ih]
    have h1 : countPlaceholders "?" = 1 := rfl
    have h2 : countPlaceholders ", " = 0 := rfl
    rw [h1, h2]
    omega

theorem delete_duplicated_db (db : DB) (t : String) (tbl : Table)
    (hf : findTable db t = some tbl) :
    (delete_duplicated db t).db
      = (create_table_from_dataframe db t
          { columns := tbl.columns, rows := selectDistinct tbl.rows }).db := by
  have ht : t ∈ tablesProp db := mem_tablesProp_of_findTable hf
  simp [delete_duplicated, ht, hf]

theorem create_table_err_none (db : DB) (n : String)
    (cd : List (String × PyType)) : (create_table db n cd).err = none := by
  by_cases hn : n ∈ tablesProp db <;> simp [create_table, hn]

theorem create_table_noop (db : DB) (n : String)
    (cd : List (String × PyType)) (hn : n ∈ tablesProp db) :
    (create_table db n cd).db = db := by
  simp [create_table, hn]

theorem create_table_new (db : DB) (n : String)
    (cd : List (String × PyType)) (hn : n ∉ tablesProp db) :
    (create_table db n cd).db
      = { tables := db.tables
          ++ [{ name := n, columns := cd.map Prod.fst, rows := [] }] } := by
  simp [create_table, hn]

theorem count_eq_zero_of_not_mem (l : List String) (n : String)
    (h : n ∉ l) : l.count n = 0 := by
  induction l with
  | nil => rfl
  | cons a l ih =>
    rw [List.count_cons]
    have hne : ¬(a == n) = true := by
      simp only [beq_iff_eq]
      exact fun e => h (e ▸ List.mem_cons_self a l)
    rw [if_neg hne, ih (fun hm => h (List.mem_cons_of_mem a hm))]

theorem count_eq_one_of_nodup_mem (l : List String) (n : String)
    (hd : l.Nodup) (h : n ∈ l) : l.count n = 1 := by
  induction l with
  | nil => simp at h
  | cons a l ih =>
    rw [List.count_cons]
    rcases List.mem_cons.mp h with rfl | h1
    · rw [count_eq_zero_of_not_mem l n (List.nodup_cons.mp hd).1,
        if_pos (by simp)]
    · have hne : ¬(a == n) = true := by
        simp only [beq_iff_eq]
        exact fun e => (List.nodup_cons.mp hd).1 (e ▸ h1)
      rw [if_neg hne, ih (List.nodup_cons.mp hd).2 h1]

end Lemmas

/-- C1: for every table name `t` absent from `list_tables()` at call
time, each of the seven table-targeted operations — rename, delete,
fetch (list and dataframe forms), the two inserts and deduplicate —
raises `TableNotFound(t)` rather than silently doing nothing. -/
theorem c1_absent_table_raises_table_not_found (db : DB) (t u : String)
    (vs : List Row) (df : DataFrame) (h : t ∉ tablesProp db) :
    (rename_table db t u).err = some (DBError.tableNotFound t) ∧
    (delete_table db t).err = some (DBError.tableNotFound t) ∧
    fetchall db t = .error (DBError.tableNotFound t) ∧
    fetchall_to_dataframe db t = .error (DBError.tableNotFound t) ∧
    (insert_records db t vs).err = some (DBError.tableNotFound t) ∧
    (insert_records_from_dataframe db t df).err = some (DBError.tableNotFound t) ∧
    (delete_duplicated db t).err = some (DBError.tableNotFound t) := by
  refine ⟨?_, ?_, ?_, ?_, ?_, ?_, ?_⟩ <;>
    simp [rename_table, delete_table, fetchall, fetchall_to_dataframe,
      insert_records, insert_records_from_dataframe, delete_duplicated, h]

/-- Witness for C1 at a concrete store: `dbW` holds only `test`, and
every operation applied to the absent name `missing` reports
`TableNotFound("missing")`. -/
theorem c1_absent_table_raises_table_not_found_witness :
    "missing" ∉ tablesProp dbW ∧
    ((rename_table dbW "missing" "other").err
        = some (DBError.tableNotFound "missing") ∧
      (delete_table dbW "missing").err = some (DBError.tableNotFound "missing") ∧
      fetchall dbW "missing" = .error (DBError.tableNotFound "missing") ∧
      fetchall_to_dataframe dbW "missing"
        = .error (DBError.tableNotFound "missing") ∧
      (insert_records dbW "missing" [[Val.intV 3]]).err
        = some (DBError.tableNotFound "missing") ∧
      (insert_records_from_dataframe dbW "missing" dfEmptyW).err
        = some (DBError.tableNotFound "missing") ∧
      (delete_duplicated dbW "missing").err
        = some (DBError.tableNotFound "missing")) :=
  ⟨by decide,
    c1_absent_table_raises_table_not_found dbW "missing" "other"
      [[Val.intV 3]] dfEmptyW (by decide)⟩

/-- C2: on an existing table, `insert_records` with an empty list and
`insert_records_from_dataframe` with a zero-row frame both raise
`ValueError("add data is empty.")`, executing no SQL and leaving the
state untouched. -/
theorem c2_empty_insert_raises_value_error (db : DB) (t : String)
    (df : DataFrame) (ht : t ∈ tablesProp db) (hdf : df.rows = []) :
    insert_records db t []
      = { db := db, executed := [],
          err := some (DBError.valueError "add data is empty.") } ∧
    insert_records_from_dataframe db t df
      = { db := db, executed := [],
          err := some (DBError.valueError "add data is empty.") } := by
  constructor
  · simp [insert_records, ht]
  · simp [insert_records_from_dataframe, ht, DataFrame.empty, hdf]

/-- Witness for C2: inserting an empty payload into the existing table
`test` of `dbW` raises the empty-input error both ways. -/
theorem c2_empty_insert_raises_value_error_witness :
    "test" ∈ tablesProp dbW ∧ dfEmptyW.rows = [] ∧
    (insert_records dbW "test" []
        = { db := dbW, executed := [],
            err := some (DBError.valueError "add data is empty.") } ∧
      insert_records_from_dataframe dbW "test" dfEmptyW
        = { db := dbW, executed := [],
            err := some (DBError.valueError "add data is empty.") }) :=
  ⟨by decide, rfl,
    c2_empty_insert_raises_value_error dbW "test" dfEmptyW (by decide) rfl⟩

/-- C7: `list_tables()` (`DBHandler.tables`) returns exactly the names
of the catalog's user tables, in catalog order, with no sort applied by
this layer. -/
theorem c7_tables_returns_catalog_names (db : DB) :
    tablesProp db = db.tables.map Table.name :=
  tablesProp_eq_map_name db

/-- C8: the `TableNotFoundError` message is a human-readable string that
contains the table name and states that the table does not exist yet. -/
theorem c8_table_not_found_message (n : String) :
    TableNotFoundError.str { table_name := n }
      = "table '" ++ n ++ "' does not exists yet." ∧
    ∃ p s, TableNotFoundError.str { table_name := n } = p ++ n ++ s ∧
      s = "' does not exists yet." :=
  ⟨rfl, "table '", "' does not exists yet.", rfl, rfl⟩

/-- C3: `deduplicate` on an existing table collapses rows that are
identical across every column to one instance each — the fetched result
has no duplicate rows and contains exactly the rows of the original
table — and a second `deduplicate` leaves the row set set-equal to the
first result. -/
theorem c3_deduplicate_distinct_idempotent (db : DB) (t : String)
    (tbl : Table) (hf : findTable db t = some tbl) :
    ∃ rs₁ rs₂ : List Row,
      fetchall (delete_duplicated db t).db t = .ok rs₁ ∧
      rs₁.Nodup ∧ (∀ r, r ∈ rs₁ ↔ r ∈ tbl.rows) ∧
      fetchall (delete_duplicated (delete_duplicated db t).db t).db t
        = .ok rs₂ ∧
      (∀ r, r ∈ rs₂ ↔ r ∈ rs₁) := by
  refine ⟨selectDistinct tbl.rows, selectDistinct (selectDistinct tbl.rows),
    ?_, nodup_selectDistinct tbl.rows, fun r => mem_selectDistinct r tbl.rows,
    ?_, fun r => mem_selectDistinct r (selectDistinct tbl.rows)⟩
  · rw [delete_duplicated_db db t tbl hf, fetchall_replace]
  · rw [delete_duplicated_db db t tbl hf,
      delete_duplicated_db _ t _ (findTable_replace db t _), fetchall_replace]

/-- Witness for C3: deduplicating the `test` table of `dbW`, whose rows
are `[(1,"te1"),(2,"te2"),(2,"te2")]`, yields a duplicate-free row set
equal to the original's distinct rows, and deduplicating again keeps it
set-equal. -/
theorem c3_deduplicate_distinct_idempotent_witness :
    findTable dbW "test" = some tableW ∧
    ∃ rs₁ rs₂ : List Row,
      fetchall (delete_duplicated dbW "test").db "test" = .ok rs₁ ∧
      rs₁.Nodup ∧ (∀ r, r ∈ rs₁ ↔ r ∈ tableW.rows) ∧
      fetchall (delete_duplicated (delete_duplicated dbW "test").db "test").db
        "test" = .ok rs₂ ∧
      (∀ r, r ∈ rs₂ ↔ r ∈ rs₁) :=
  ⟨by decide, c3_deduplicate_distinct_idempotent dbW "test" tableW (by decide)⟩

/-- C4: round trip — `create_table_from_dataframe(t, D)` followed by
`fetchall_to_dataframe(t)` returns a frame equal in columns, row values
and row count to `D`. -/
theorem c4_create_fetch_roundtrip (db : DB) (t : String) (df : DataFrame) :
    fetchall_to_dataframe (create_table_from_dataframe db t df).db t
      = .ok df := by
  rw [fetchall_to_dataframe, if_neg (by simp [mem_tablesProp_replace db t df]),
    findTable_replace]

/-- C5: `create_table(name, cols)` makes `list_tables()` contain `name`
exactly once, and re-creating with the same name raises no error and
does not duplicate the catalog entry (no column check on
re-creation). -/
theorem c5_create_table_idempotent (db : DB) (n : String)
    (cd cd2 : List (String × PyType))
    (h : (db.tables.map Table.name).Nodup) :
    (create_table db n cd).err = none ∧
    (tablesProp (create_table db n cd).db).count n = 1 ∧
    (create_table (create_table db n cd).db n cd2).err = none ∧
    (create_table (create_table db n cd).db n cd2).db
      = (create_table db n cd).db := by
  by_cases hn : n ∈ tablesProp db
  · have hdb : (create_table db n cd).db = db := create_table_noop db n cd hn
    refine ⟨create_table_err_none db n cd, ?_, ?_, ?_⟩
    · rw [hdb, tablesProp_eq_map_name]
      exact count_eq_one_of_nodup_mem _ n h
        (by rwa [tablesProp_eq_map_name] at hn)
    · exact create_table_err_none _ n cd2
    · rw [create_table_noop _ n cd2 (by rw [hdb]; exact hn)]
  · have hdb : (create_table db n cd).db
        = { tables := db.tables
            ++ [{ name := n, columns := cd.map Prod.fst, rows := [] }] } :=
      create_table_new db n cd hn
    have hn2 : n ∈ tablesProp (create_table db n cd).db := by
      rw [hdb, tablesProp_eq_map_name]
      simp
    refine ⟨create_table_err_none db n cd, ?_, create_table_err_none _ n cd2,
      create_table_noop _ n cd2 hn2⟩
    rw [hdb, tablesProp_eq_map_name]
    rw [List.map_append, List.count_append]
    have h0 : (db.tables.map Table.name).count n = 0 :=
      count_eq_zero_of_not_mem _ n (by rwa [tablesProp_eq_map_name] at hn)
    rw [h0]
    simp [List.count_cons]

/-- Witness for C5: creating `t2` in `dbW` (whose catalog names are
duplicate-free) lists `t2` exactly once, and creating it again is a
no-op without error. -/
theorem c5_create_table_idempotent_witness :
    (dbW.tables.map Table.name).Nodup ∧
    ((create_table dbW "t2" [("id", PyType.pint)]).err = none ∧
      (tablesProp (create_table dbW "t2" [("id", PyType.pint)]).db).count "t2"
        = 1 ∧
      (create_table (create_table dbW "t2" [("id", PyType.pint)]).db "t2"
        [("id", PyType.pint)]).err = none ∧
      (create_table (create_table dbW "t2" [("id", PyType.pint)]).db "t2"
        [("id", PyType.pint)]).db
        = (create_table dbW "t2" [("id", PyType.pint)]).db) :=
  ⟨by decide, c5_create_table_idempotent dbW "t2" [("id", PyType.pint)]
    [("id", PyType.pint)] (by decide)⟩

/-- C6: on an existing table, `insert_records` with a non-empty row list
whose rows match the table's column count succeeds, and a subsequent
`fetchall` returns the original rows followed by the new rows in
insertion order. -/
theorem c6_insert_records_appends (db : DB) (t : String) (tbl : Table)
    (v : Row) (vs : List Row) (hf : findTable db t = some tbl)
    (hlen : ∀ w ∈ v :: vs, w.length = tbl.columns.length) :
    (insert_records db t (v :: vs)).err = none ∧
    fetchall (insert_records db t (v :: vs)).db t
      = .ok (tbl.rows ++ v :: vs) := by
  have ht : t ∈ tablesProp db := mem_tablesProp_of_findTable hf
  have hv : v.length = tbl.columns.length := hlen v (List.mem_cons_self v vs)
  have hall : (v :: vs).all
      (fun w => w.length = ((v :: vs).headD []).length) = true := by
    rw [List.all_eq_true]
    intro w hw
    simp only [List.headD_cons, decide_eq_true_eq]
    rw [hlen w hw, hv]
  have hres : insert_records db t (v :: vs)
      = { db := { tables := db.tables.map (fun u =>
            if u.name = t then { u with rows := u.rows ++ (v :: vs) } else u) },
          executed := ["INSERT INTO " ++ t ++ " VALUES ("
            ++ pyJoin ", " (List.replicate ((v :: vs).headD []).length "?")
            ++ ")"],
          err := none } := by
    simp only [insert_records, ht, hf]
    simp [hv, hall]
    exact fun x hx => hlen x (List.mem_cons_of_mem v hx)
  refine ⟨by rw [hres], ?_⟩
  rw [hres, fetchall]
  have hnames : tablesProp { tables := db.tables.map (fun u =>
      if u.name = t then { u with rows := u.rows ++ (v :: vs) } else u) }
      = tablesProp db := by
    rw [tablesProp_eq_map_name, tablesProp_eq_map_name]
    exact map_name_append_rows db.tables t (v :: vs)
  rw [if_neg (by rw [hnames]; simp [ht])]
  have hfind : findTable { tables := db.tables.map (fun u =>
      if u.name = t then { u with rows := u.rows ++ (v :: vs) } else u) } t
      = some { tbl with rows := tbl.rows ++ (v :: vs) } :=
    find?_append_rows db.tables t tbl (v :: vs) hf
  rw [hfind]

/-- Witness for C6: inserting `[(3,"te3"),(4,"te4")]` into the `test`
table of `dbW` succeeds and `fetchall` returns the three original rows
followed by the two new ones. -/
theorem c6_insert_records_appends_witness :
    findTable dbW "test" = some tableW ∧
    (∀ w ∈ [Val.intV 3, Val.textV "te3"] :: [[Val.intV 4, Val.textV "te4"]],
      w.length = tableW.columns.length) ∧
    ((insert_records dbW "test"
        ([Val.intV 3, Val.textV "te3"] :: [[Val.intV 4, Val.textV "te4"]])).err
        = none ∧
      fetchall (insert_records dbW "test"
          ([Val.intV 3, Val.textV "te3"] :: [[Val.intV 4, Val.textV "te4"]])).db
          "test"
        = .ok (tableW.rows
            ++ [Val.intV 3, Val.textV "te3"] :: [[Val.intV 4, Val.textV "te4"]])) :=
  ⟨by decide, by decide,
    c6_insert_records_appends dbW "test" tableW [Val.intV 3, Val.textV "te3"]
      [[Val.intV 4, Val.textV "te4"]] (by decide) (by decide)⟩

/-- C9: on the TableNotFound and empty-input error paths, the existence
and emptiness checks run before any SQL statement, so the operation
executes nothing against the engine and leaves the state exactly
unchanged. -/
theorem c9_error_paths_execute_nothing (db : DB) (t u e : String)
    (vs : List Row) (df dfe : DataFrame) (h : t ∉ tablesProp db)
    (he : e ∈ tablesProp db) (hdfe : dfe.rows = []) :
    ((rename_table db t u).db = db ∧ (rename_table db t u).executed = []) ∧
    ((delete_table db t).db = db ∧ (delete_table db t).executed = []) ∧
    ((delete_duplicated db t).db = db ∧
      (delete_duplicated db t).executed = []) ∧
    ((insert_records db t vs).db = db ∧
      (insert_records db t vs).executed = []) ∧
    ((insert_records_from_dataframe db t df).db = db ∧
      (insert_records_from_dataframe db t df).executed = []) ∧
    ((insert_records db e []).db = db ∧
      (insert_records db e []).executed = []) ∧
    ((insert_records_from_dataframe db e dfe).db = db ∧
      (insert_records_from_dataframe db e dfe).executed = []) := by
  refine ⟨⟨?_, ?_⟩, ⟨?_, ?_⟩, ⟨?_, ?_⟩, ⟨?_, ?_⟩, ⟨?_, ?_⟩, ⟨?_, ?_⟩,
    ⟨?_, ?_⟩⟩ <;>
    simp [rename_table, delete_table, delete_duplicated, insert_records,
      insert_records_from_dataframe, DataFrame.empty, h, he, hdfe]

/-- Witness for C9 on `dbW`: operations on the absent name `missing`
and empty inserts into the existing `test` leave the state as it was
and execute no SQL. -/
theorem c9_error_paths_execute_nothing_witness :
    "missing" ∉ tablesProp dbW ∧ "test" ∈ tablesProp dbW ∧
    dfEmptyW.rows = [] ∧
    (((rename_table dbW "missing" "other").db = dbW ∧
        (rename_table dbW "missing" "other").executed = []) ∧
      ((delete_table dbW "missing").db = dbW ∧
        (delete_table dbW "missing").executed = []) ∧
      ((delete_duplicated dbW "missing").db = dbW ∧
        (delete_duplicated dbW "missing").executed = []) ∧
      ((insert_records dbW "missing" [[Val.intV 3]]).db = dbW ∧
        (insert_records dbW "missing" [[Val.intV 3]]).executed = []) ∧
      ((insert_records_from_dataframe dbW "missing" dfEmptyW).db = dbW ∧
        (insert_records_from_dataframe dbW "missing" dfEmptyW).executed = []) ∧
      ((insert_records dbW "test" []).db = dbW ∧
        (insert_records dbW "test" []).executed = []) ∧
      ((insert_records_from_dataframe dbW "test" dfEmptyW).db = dbW ∧
        (insert_records_from_dataframe dbW "test" dfEmptyW).executed = [])) :=
  ⟨by decide, by decide, rfl,
    c9_error_paths_execute_nothing dbW "missing" "other" "test"
      [[Val.intV 3]] dfEmptyW dfEmptyW (by decide) (by decide) rfl⟩

/-- C10: for a non-empty payload the generated INSERT statement carries
exactly as many `?` parameter slots as the first row has values, and a
later row whose arity matches the table's column count but differs from
the first row's arity makes the call fail with an engine error. -/
theorem c10_insert_placeholder_count (db : DB) (t : String) (tbl : Table)
    (v w : Row) (vs : List Row) (hf : findTable db t = some tbl)
    (_hw : w ∈ vs) (hwc : w.length = tbl.columns.length)
    (hne : w.length ≠ v.length) :
    (insert_records db t (v :: vs)).executed
      = ["INSERT INTO " ++ t ++ " VALUES (" ++ placeholders v.length ++ ")"] ∧
    countPlaceholders (placeholders v.length) = v.length ∧
    ∃ m, (insert_records db t (v :: vs)).err
      = some (DBError.engineError m) := by
  have ht : t ∈ tablesProp db := mem_tablesProp_of_findTable hf
  have hvc : v.length ≠ tbl.columns.length := fun e => hne (hwc.trans e.symm)
  have hres : insert_records db t (v :: vs)
      = { db := db,
          executed := ["INSERT INTO " ++ t ++ " VALUES ("
            ++ pyJoin ", " (List.replicate ((v :: vs).headD []).length "?")
            ++ ")"],
          err := some (.engineError
            "table has a different number of columns") } := by
    simp only [insert_records, ht, hf]
    simp [hvc]
  rw [hres]
  exact ⟨rfl, countPlaceholders_placeholders v.length, _, rfl⟩

/-- Witness for C10: inserting `[(3,)] ++ [(4,"te4")]` into the
two-column `test` table of `dbW` builds an INSERT with one placeholder
(the first row's arity) and fails with an engine error, although the
second row matches the table's column count. -/
theorem c10_insert_placeholder_count_witness :
    findTable dbW "test" = some tableW ∧
    ([Val.intV 4, Val.textV "te4"] : Row) ∈ [[Val.intV 4, Val.textV "te4"]] ∧
    ([Val.intV 4, Val.textV "te4"] : Row).length = tableW.columns.length ∧
    ([Val.intV 4, Val.textV "te4"] : Row).length ≠ ([Val.intV 3] : Row).length ∧
    ((insert_records dbW "test"
        ([Val.intV 3] :: [[Val.intV 4, Val.textV "te4"]])).executed
        = ["INSERT INTO " ++ "test" ++ " VALUES ("
            ++ placeholders ([Val.intV 3] : Row).length ++ ")"] ∧
      countPlaceholders (placeholders ([Val.intV 3] : Row).length)
        = ([Val.intV 3] : Row).length ∧
      ∃ m, (insert_records dbW "test"
          ([Val.intV 3] :: [[Val.intV 4, Val.textV "te4"]])).err
        = some (DBError.engineError m)) :=
  ⟨by decide, by decide, by decide, by decide,
    c10_insert_placeholder_count dbW "test" tableW [Val.intV 3]
      [Val.intV 4, Val.textV "te4"] [[Val.intV 4, Val.textV "te4"]]
      (by decide) (by decide) (by decide) (by decide)⟩

end DBH
